import Mathlib

/-!
Verification of the constant table in
src/STM32CubeMX/STM32F4/MX_Device/MX_Device.h.

The header is a flat list of C preprocessor definitions.  Each definition
binds a symbolic name either to a numeric literal or to a symbolic token
(a name defined elsewhere in the HAL, outside this repository).  We embed
the file as a list of entries, one per define line, in file order, keeping
the exact names, the peripheral grouping given by the section banners, and
the literal right-hand sides.
-/

namespace MX_Device

/-- The symbolic tokens that appear as right-hand sides of defines in
MX_Device.h.  They are opaque names resolved by the HAL headers, which are
outside this repository, so here they are plain constructors. -/
inductive Token where
  | PB6
  | PB9
  | PA5
  | PA6
  | PA7
  | GPIO_PIN_5
  | GPIO_PIN_6
  | GPIO_PIN_7
  | GPIO_PIN_9
  | GPIOA
  | GPIOB
  | GPIO_MODE_AF_OD
  | GPIO_MODE_AF_PP
  | GPIO_PULLUP
  | GPIO_NOPULL
  | GPIO_SPEED_FREQ_LOW
  | GPIO_SPEED_FREQ_VERY_HIGH
  | GPIO_AF4_I2C1
  | GPIO_AF5_SPI1
  | Cdc_FS
  | Device_Only
  deriving DecidableEq, Repr

/-- A right-hand side of a define in MX_Device.h: either a numeric literal
or a symbolic token. -/
inductive Value where
  | num : Nat → Value
  | tok : Token → Value
  deriving DecidableEq, Repr

/-- The peripheral grouping of the file: the header part before the first
banner, then the four peripheral sections in file order. -/
inductive Group where
  | Header
  | I2C1
  | SPI1
  | USB_DEVICE
  | USB_OTG_FS
  deriving DecidableEq, Repr

/-- One define line of MX_Device.h: the defined name, the section it lies
in, and its literal value. -/
structure Entry where
  name : String
  group : Group
  value : Value
  deriving DecidableEq, Repr

/-- The whole of MX_Device.h, one entry per define line, in file order. -/
def defines : List Entry :=
  [ ⟨"MX_DEVICE_VERSION", Group.Header, Value.num 0x01000000⟩
  , ⟨"MX_I2C1", Group.I2C1, Value.num 1⟩
  , ⟨"MX_I2C1_SCL_Pin", Group.I2C1, Value.tok Token.PB6⟩
  , ⟨"MX_I2C1_SCL_GPIO_Pin", Group.I2C1, Value.tok Token.GPIO_PIN_6⟩
  , ⟨"MX_I2C1_SCL_GPIOx", Group.I2C1, Value.tok Token.GPIOB⟩
  , ⟨"MX_I2C1_SCL_GPIO_Mode", Group.I2C1, Value.tok Token.GPIO_MODE_AF_OD⟩
  , ⟨"MX_I2C1_SCL_GPIO_PuPd", Group.I2C1, Value.tok Token.GPIO_PULLUP⟩
  , ⟨"MX_I2C1_SCL_GPIO_Speed", Group.I2C1, Value.tok Token.GPIO_SPEED_FREQ_LOW⟩
  , ⟨"MX_I2C1_SCL_GPIO_AF", Group.I2C1, Value.tok Token.GPIO_AF4_I2C1⟩
  , ⟨"MX_I2C1_SDA_Pin", Group.I2C1, Value.tok Token.PB9⟩
  , ⟨"MX_I2C1_SDA_GPIO_Pin", Group.I2C1, Value.tok Token.GPIO_PIN_9⟩
  , ⟨"MX_I2C1_SDA_GPIOx", Group.I2C1, Value.tok Token.GPIOB⟩
  , ⟨"MX_I2C1_SDA_GPIO_Mode", Group.I2C1, Value.tok Token.GPIO_MODE_AF_OD⟩
  , ⟨"MX_I2C1_SDA_GPIO_PuPd", Group.I2C1, Value.tok Token.GPIO_PULLUP⟩
  , ⟨"MX_I2C1_SDA_GPIO_Speed", Group.I2C1, Value.tok Token.GPIO_SPEED_FREQ_LOW⟩
  , ⟨"MX_I2C1_SDA_GPIO_AF", Group.I2C1, Value.tok Token.GPIO_AF4_I2C1⟩
  , ⟨"MX_SPI1", Group.SPI1, Value.num 1⟩
  , ⟨"MX_SPI1_PERIPH_CLOCK_FREQ", Group.SPI1, Value.num 84000000⟩
  , ⟨"MX_SPI1_MISO_Pin", Group.SPI1, Value.tok Token.PA6⟩
  , ⟨"MX_SPI1_MISO_GPIO_Pin", Group.SPI1, Value.tok Token.GPIO_PIN_6⟩
  , ⟨"MX_SPI1_MISO_GPIOx", Group.SPI1, Value.tok Token.GPIOA⟩
  , ⟨"MX_SPI1_MISO_GPIO_Mode", Group.SPI1, Value.tok Token.GPIO_MODE_AF_PP⟩
  , ⟨"MX_SPI1_MISO_GPIO_PuPd", Group.SPI1, Value.tok Token.GPIO_NOPULL⟩
  , ⟨"MX_SPI1_MISO_GPIO_Speed", Group.SPI1, Value.tok Token.GPIO_SPEED_FREQ_LOW⟩
  , ⟨"MX_SPI1_MISO_GPIO_AF", Group.SPI1, Value.tok Token.GPIO_AF5_SPI1⟩
  , ⟨"MX_SPI1_MOSI_Pin", Group.SPI1, Value.tok Token.PA7⟩
  , ⟨"MX_SPI1_MOSI_GPIO_Pin", Group.SPI1, Value.tok Token.GPIO_PIN_7⟩
  , ⟨"MX_SPI1_MOSI_GPIOx", Group.SPI1, Value.tok Token.GPIOA⟩
  , ⟨"MX_SPI1_MOSI_GPIO_Mode", Group.SPI1, Value.tok Token.GPIO_MODE_AF_PP⟩
  , ⟨"MX_SPI1_MOSI_GPIO_PuPd", Group.SPI1, Value.tok Token.GPIO_NOPULL⟩
  , ⟨"MX_SPI1_MOSI_GPIO_Speed", Group.SPI1, Value.tok Token.GPIO_SPEED_FREQ_LOW⟩
  , ⟨"MX_SPI1_MOSI_GPIO_AF", Group.SPI1, Value.tok Token.GPIO_AF5_SPI1⟩
  , ⟨"MX_SPI1_SCK_Pin", Group.SPI1, Value.tok Token.PA5⟩
  , ⟨"MX_SPI1_SCK_GPIO_Pin", Group.SPI1, Value.tok Token.GPIO_PIN_5⟩
  , ⟨"MX_SPI1_SCK_GPIOx", Group.SPI1, Value.tok Token.GPIOA⟩
  , ⟨"MX_SPI1_SCK_GPIO_Mode", Group.SPI1, Value.tok Token.GPIO_MODE_AF_PP⟩
  , ⟨"MX_SPI1_SCK_GPIO_PuPd", Group.SPI1, Value.tok Token.GPIO_NOPULL⟩
  , ⟨"MX_SPI1_SCK_GPIO_Speed", Group.SPI1, Value.tok Token.GPIO_SPEED_FREQ_VERY_HIGH⟩
  , ⟨"MX_SPI1_SCK_GPIO_AF", Group.SPI1, Value.tok Token.GPIO_AF5_SPI1⟩
  , ⟨"MX_USB_DEVICE", Group.USB_DEVICE, Value.num 1⟩
  , ⟨"MX_USB_DEVICE_VM", Group.USB_DEVICE, Value.tok Token.Cdc_FS⟩
  , ⟨"MX_USB_DEVICE_Cdc_FS", Group.USB_DEVICE, Value.num 1⟩
  , ⟨"MX_USB_OTG_FS", Group.USB_OTG_FS, Value.num 1⟩
  , ⟨"MX_USB_OTG_FS_VM", Group.USB_OTG_FS, Value.tok Token.Device_Only⟩
  , ⟨"MX_USB_OTG_FS_Device_Only", Group.USB_OTG_FS, Value.num 1⟩
  ]

/-- Find the full entry bound to a name, first match in file order. -/
def lookupEntry (n : String) : Option Entry :=
  defines.find? (fun e => e.name == n)

/-- Find the value bound to a name. -/
def lookup (n : String) : Option Value :=
  (lookupEntry n).map Entry.value

/-- The list of all defined names, in file order. -/
def definedNames : List String :=
  defines.map Entry.name

/-- Whether suf is a suffix of s, character for character. -/
def hasSuffix (s suf : String) : Bool :=
  List.isSuffixOf suf.data s.data

/-- The five pin entries of the file, as named by the comment above each
pin block. -/
def pinNames : List String :=
  ["I2C1_SCL", "I2C1_SDA", "SPI1_MISO", "SPI1_MOSI", "SPI1_SCK"]

/-- The seven per-pin attribute suffixes of the data model: symbolic pin
name, numeric pin-bit identifier, port, mode, pull setting, speed setting
and alternate function. -/
def pinAttrSuffixes : List String :=
  ["_Pin", "_GPIO_Pin", "_GPIOx", "_GPIO_Mode", "_GPIO_PuPd", "_GPIO_Speed", "_GPIO_AF"]

/-- The full define name for an attribute of a pin. -/
def pinAttrName (pin attr : String) : String :=
  "MX_" ++ pin ++ attr

/-- Modelled from the spec and the claim: the reference table of section 8
of the spec, listing every symbolic name of MX_Device.h under its
peripheral grouping with the literal value the file gives it, in the order
of the claim: MX_DEVICE_VERSION, then the MX_I2C1 group, the MX_SPI1
group, the MX_USB_DEVICE group, and the MX_USB_OTG_FS group. -/
def specReferenceTable : List (String × Group × Value) :=
  [ ("MX_DEVICE_VERSION", Group.Header, Value.num 0x01000000)
  , ("MX_I2C1", Group.I2C1, Value.num 1)
  , ("MX_I2C1_SCL_Pin", Group.I2C1, Value.tok Token.PB6)
  , ("MX_I2C1_SCL_GPIO_Pin", Group.I2C1, Value.tok Token.GPIO_PIN_6)
  , ("MX_I2C1_SCL_GPIOx", Group.I2C1, Value.tok Token.GPIOB)
  , ("MX_I2C1_SCL_GPIO_Mode", Group.I2C1, Value.tok Token.GPIO_MODE_AF_OD)
  , ("MX_I2C1_SCL_GPIO_PuPd", Group.I2C1, Value.tok Token.GPIO_PULLUP)
  , ("MX_I2C1_SCL_GPIO_Speed", Group.I2C1, Value.tok Token.GPIO_SPEED_FREQ_LOW)
  , ("MX_I2C1_SCL_GPIO_AF", Group.I2C1, Value.tok Token.GPIO_AF4_I2C1)
  , ("MX_I2C1_SDA_Pin", Group.I2C1, Value.tok Token.PB9)
  , ("MX_I2C1_SDA_GPIO_Pin", Group.I2C1, Value.tok Token.GPIO_PIN_9)
  , ("MX_I2C1_SDA_GPIOx", Group.I2C1, Value.tok Token.GPIOB)
  , ("MX_I2C1_SDA_GPIO_Mode", Group.I2C1, Value.tok Token.GPIO_MODE_AF_OD)
  , ("MX_I2C1_SDA_GPIO_PuPd", Group.I2C1, Value.tok Token.GPIO_PULLUP)
  , ("MX_I2C1_SDA_GPIO_Speed", Group.I2C1, Value.tok Token.GPIO_SPEED_FREQ_LOW)
  , ("MX_I2C1_SDA_GPIO_AF", Group.I2C1, Value.tok Token.GPIO_AF4_I2C1)
  , ("MX_SPI1", Group.SPI1, Value.num 1)
  , ("MX_SPI1_PERIPH_CLOCK_FREQ", Group.SPI1, Value.num 84000000)
  , ("MX_SPI1_MISO_Pin", Group.SPI1, Value.tok Token.PA6)
  , ("MX_SPI1_MISO_GPIO_Pin", Group.SPI1, Value.tok Token.GPIO_PIN_6)
  , ("MX_SPI1_MISO_GPIOx", Group.SPI1, Value.tok Token.GPIOA)
  , ("MX_SPI1_MISO_GPIO_Mode", Group.SPI1, Value.tok Token.GPIO_MODE_AF_PP)
  , ("MX_SPI1_MISO_GPIO_PuPd", Group.SPI1, Value.tok Token.GPIO_NOPULL)
  , ("MX_SPI1_MISO_GPIO_Speed", Group.SPI1, Value.tok Token.GPIO_SPEED_FREQ_LOW)
  , ("MX_SPI1_MISO_GPIO_AF", Group.SPI1, Value.tok Token.GPIO_AF5_SPI1)
  , ("MX_SPI1_MOSI_Pin", Group.SPI1, Value.tok Token.PA7)
  , ("MX_SPI1_MOSI_GPIO_Pin", Group.SPI1, Value.tok Token.GPIO_PIN_7)
  , ("MX_SPI1_MOSI_GPIOx", Group.SPI1, Value.tok Token.GPIOA)
  , ("MX_SPI1_MOSI_GPIO_Mode", Group.SPI1, Value.tok Token.GPIO_MODE_AF_PP)
  , ("MX_SPI1_MOSI_GPIO_PuPd", Group.SPI1, Value.tok Token.GPIO_NOPULL)
  , ("MX_SPI1_MOSI_GPIO_Speed", Group.SPI1, Value.tok Token.GPIO_SPEED_FREQ_LOW)
  , ("MX_SPI1_MOSI_GPIO_AF", Group.SPI1, Value.tok Token.GPIO_AF5_SPI1)
  , ("MX_SPI1_SCK_Pin", Group.SPI1, Value.tok Token.PA5)
  , ("MX_SPI1_SCK_GPIO_Pin", Group.SPI1, Value.tok Token.GPIO_PIN_5)
  , ("MX_SPI1_SCK_GPIOx", Group.SPI1, Value.tok Token.GPIOA)
  , ("MX_SPI1_SCK_GPIO_Mode", Group.SPI1, Value.tok Token.GPIO_MODE_AF_PP)
  , ("MX_SPI1_SCK_GPIO_PuPd", Group.SPI1, Value.tok Token.GPIO_NOPULL)
  , ("MX_SPI1_SCK_GPIO_Speed", Group.SPI1, Value.tok Token.GPIO_SPEED_FREQ_VERY_HIGH)
  , ("MX_SPI1_SCK_GPIO_AF", Group.SPI1, Value.tok Token.GPIO_AF5_SPI1)
  , ("MX_USB_DEVICE", Group.USB_DEVICE, Value.num 1)
  , ("MX_USB_DEVICE_VM", Group.USB_DEVICE, Value.tok Token.Cdc_FS)
  , ("MX_USB_DEVICE_Cdc_FS", Group.USB_DEVICE, Value.num 1)
  , ("MX_USB_OTG_FS", Group.USB_OTG_FS, Value.num 1)
  , ("MX_USB_OTG_FS_VM", Group.USB_OTG_FS, Value.tok Token.Device_Only)
  , ("MX_USB_OTG_FS_Device_Only", Group.USB_OTG_FS, Value.num 1)
  ]

/-- In any list of entries, a name that occurs among the entry names is
found by find? on name equality. -/
theorem find_of_name_mem (l : List Entry) (n : String)
    (h : n ∈ l.map Entry.name) :
    (l.find? (fun e => e.name == n)).isSome = true := by
  induction l with
  | nil => simp at h
  | cons a t ih =>
    rcases List.mem_cons.mp h with h1 | h2
    · simp [List.find?, h1.symm]
    · by_cases hc : (a.name == n) = true
      · simp [List.find?, hc]
      · simpa [List.find?, hc] using ih h2

/-- Claim C1: every symbolic constant name of MX_Device.h
(MX_DEVICE_VERSION and the MX_I2C1, MX_SPI1, MX_USB_DEVICE and
MX_USB_OTG_FS groups) is bound by the embedded constant environment,
under its peripheral grouping, to the literal value given in the file:
the environment read off the source coincides row by row with the
reference table read off the spec, and looking up each reference name
yields exactly its reference grouping and value. -/
theorem C1_environment_equals_spec_reference :
    defines.map (fun e => (e.name, e.group, e.value)) = specReferenceTable
      ∧ (specReferenceTable.all
          (fun p => lookupEntry p.1 == some ⟨p.1, p.2.1, p.2.2⟩)) = true :=
  ⟨rfl, by decide⟩

/-- Claim C2: MX_SPI1_PERIPH_CLOCK_FREQ equals 84000000, and the SPI1
group holds the only clock-frequency constant of the file. -/
theorem C2_spi1_clock_frequency :
    lookup ("MX_SPI1_PERIPH_CLOCK_FREQ") = some (Value.num 84000000)
      ∧ defines.filter (fun e => hasSuffix e.name ("PERIPH_CLOCK_FREQ"))
          = [⟨"MX_SPI1_PERIPH_CLOCK_FREQ", Group.SPI1, Value.num 84000000⟩] :=
  ⟨rfl, by decide⟩

/-- Claim C3: MX_USB_DEVICE_VM is bound to the token Cdc_FS, and the
companion constant MX_USB_DEVICE_Cdc_FS equals 1. -/
theorem C3_usb_device_virtual_mode :
    lookup ("MX_USB_DEVICE_VM") = some (Value.tok Token.Cdc_FS)
      ∧ lookup ("MX_USB_DEVICE_Cdc_FS") = some (Value.num 1) :=
  ⟨rfl, rfl⟩

/-- Claim C4: MX_I2C1_SCL_GPIOx resolves to the token GPIOB, port B. -/
theorem C4_i2c1_scl_port :
    lookup ("MX_I2C1_SCL_GPIOx") = some (Value.tok Token.GPIOB) :=
  rfl

/-- Claim C5: MX_SPI1_SCK_GPIO_Speed resolves to the very-high speed
setting while the MISO and MOSI pins of SPI1 use the low speed setting. -/
theorem C5_spi1_pin_speeds :
    lookup ("MX_SPI1_SCK_GPIO_Speed")
        = some (Value.tok Token.GPIO_SPEED_FREQ_VERY_HIGH)
      ∧ lookup ("MX_SPI1_MISO_GPIO_Speed")
          = some (Value.tok Token.GPIO_SPEED_FREQ_LOW)
      ∧ lookup ("MX_SPI1_MOSI_GPIO_Speed")
          = some (Value.tok Token.GPIO_SPEED_FREQ_LOW) :=
  ⟨rfl, rfl, rfl⟩

/-- Claim C6: no constant of the file is defined twice, and each attribute
of each of the five pins is defined by exactly one entry, so every pin
maps to exactly one port, mode, speed and alternate-function tuple. -/
theorem C6_pin_attributes_unique :
    definedNames.Nodup
      ∧ (pinNames.all (fun p => pinAttrSuffixes.all
          (fun a =>
            (defines.filter (fun e => e.name == pinAttrName p a)).length
              == 1))) = true :=
  ⟨by decide, by decide⟩

/-- Claim C7: each of the five pin entries carries all seven attributes of
the data model: pin name, pin-bit identifier, port, mode, pull setting,
speed setting and alternate function are all bound. -/
theorem C7_every_pin_has_all_seven_attributes :
    (pinNames.all (fun p => pinAttrSuffixes.all
      (fun a => (lookup (pinAttrName p a)).isSome))) = true := by
  decide

/-- Claim C8: looking up any name defined by the file is total and cannot
fail: lookup returns a value for every defined name. -/
theorem C8_lookup_total_on_defined_names (n : String)
    (h : n ∈ definedNames) : (lookup n).isSome = true := by
  have h1 : (lookupEntry n).isSome = true :=
    find_of_name_mem defines n h
  rw [lookup]
  cases hle : lookupEntry n with
  | none => rw [hle] at h1; simp at h1
  | some e => simp

/-- Witness for claim C8 at the concrete name MX_SPI1_SCK_GPIO_AF. -/
theorem C8_lookup_total_witness :
    ("MX_SPI1_SCK_GPIO_AF" ∈ definedNames)
      ∧ (lookup ("MX_SPI1_SCK_GPIO_AF")).isSome = true :=
  ⟨by decide,
    C8_lookup_total_on_defined_names ("MX_SPI1_SCK_GPIO_AF") (by decide)⟩

/-- Claim C9: MX_USB_OTG_FS_VM is bound to the token Device_Only, and the
companion constant MX_USB_OTG_FS_Device_Only equals 1. -/
theorem C9_usb_otg_fs_virtual_mode :
    lookup ("MX_USB_OTG_FS_VM") = some (Value.tok Token.Device_Only)
      ∧ lookup ("MX_USB_OTG_FS_Device_Only") = some (Value.num 1) :=
  ⟨rfl, rfl⟩

/-- Claim C10: the four peripheral presence flags MX_I2C1, MX_SPI1,
MX_USB_DEVICE and MX_USB_OTG_FS are each defined and equal 1. -/
theorem C10_presence_flags_enabled :
    lookup ("MX_I2C1") = some (Value.num 1)
      ∧ lookup ("MX_SPI1") = some (Value.num 1)
      ∧ lookup ("MX_USB_DEVICE") = some (Value.num 1)
      ∧ lookup ("MX_USB_OTG_FS") = some (Value.num 1) :=
  ⟨rfl, rfl, rfl, rfl⟩

end MX_Device
